import Mathlib

/-!
Shallow embedding of the telematics capture-gate-publish pipeline of the
`vanguard-rider` repository (Android service `DataCollectionService.kt` and
transport wrapper `MqttClient.kt`).

Scalars (Kotlin `Float`/`Double`) are modelled as `ℚ`; the opaque library
square root (`kotlin.math.sqrt`) is passed in as a function parameter
`sqrtFn : ℚ → ℚ` wherever the source calls it.  Stateful code is modelled by
explicit state passing: the service's mutable fields `liveSensorState` and
`lastPublishedState` become a `ServiceState` record threaded through the
functions, and the scheduler/ingestor interleaving becomes a list of `Step`s
folded over that state.
-/

/-! ## Constants (`DataCollectionService.kt`, companion object) -/

/-- `ACCEL_THRESHOLD = 0.5f` -/
def ACCEL_THRESHOLD : ℚ := 1 / 2

/-- `GYRO_THRESHOLD = 0.3f` -/
def GYRO_THRESHOLD : ℚ := 3 / 10

/-- `ROT_VEC_THRESHOLD = 0.05f` -/
def ROT_VEC_THRESHOLD : ℚ := 1 / 20

/-! ## Data model -/

/-- `LiveSensorState` (`DataCollectionService.kt` lines 372-378), with the
source's default field values: everything zero except `rotVecW = 1f`. -/
structure LiveSensorState where
  accX : ℚ := 0
  accY : ℚ := 0
  accZ : ℚ := 0
  gyroX : ℚ := 0
  gyroY : ℚ := 0
  gyroZ : ℚ := 0
  rotVecX : ℚ := 0
  rotVecY : ℚ := 0
  rotVecZ : ℚ := 0
  rotVecW : ℚ := 1
  latitude : ℚ := 0
  longitude : ℚ := 0
  speed : ℚ := 0
  altitude : ℚ := 0
  deriving DecidableEq, Repr

/-- `LiveSensorState()` — the value both `liveSensorState` and
`lastPublishedState` are initialised to (lines 352-354). -/
def initialLiveSensorState : LiveSensorState := {}

/-- `TelematicsData` (`DataCollectionService.kt` lines 316-336), the wire
frame built per publish. -/
structure TelematicsData where
  timestamp : ℤ
  tripId : String
  label : ℤ
  accX : ℚ
  accY : ℚ
  accZ : ℚ
  accMag : ℚ
  gyroX : ℚ
  gyroY : ℚ
  gyroZ : ℚ
  gyroMag : ℚ
  rotVecX : ℚ
  rotVecY : ℚ
  rotVecZ : ℚ
  rotVecW : ℚ
  latitude : ℚ
  longitude : ℚ
  speed : ℚ
  altitude : ℚ
  deriving DecidableEq, Repr

/-- `RealTimeStats` (`DataRepository.kt`), the payload of the local
(UI-facing) stats emission. -/
structure RealTimeStats where
  accMag : ℚ := 0
  gyroMag : ℚ := 0
  speed : ℚ := 0
  latitude : ℚ := 0
  longitude : ℚ := 0
  deriving DecidableEq, Repr

/-- The two mutable state fields of the service that the publish pipeline
reads and writes (lines 352-354). -/
structure ServiceState where
  liveSensorState : LiveSensorState
  lastPublishedState : LiveSensorState
  deriving DecidableEq, Repr

/-- State at session start: both fields constructed as `LiveSensorState()`. -/
def initialServiceState : ServiceState :=
  { liveSensorState := initialLiveSensorState
    lastPublishedState := initialLiveSensorState }

/-! ## ChangeGate (`hasStateChanged`, lines 468-486) -/

/-- `hasStateChanged()` translated literally: per-channel absolute deltas
against fixed thresholds, ORed, with any latitude/longitude inequality
counting as a change. -/
def hasStateChanged (lastPublishedState liveSensorState : LiveSensorState) : Bool :=
  let accChanged :=
    decide (|lastPublishedState.accX - liveSensorState.accX| > ACCEL_THRESHOLD) ||
    decide (|lastPublishedState.accY - liveSensorState.accY| > ACCEL_THRESHOLD) ||
    decide (|lastPublishedState.accZ - liveSensorState.accZ| > ACCEL_THRESHOLD)
  let gyroChanged :=
    decide (|lastPublishedState.gyroX - liveSensorState.gyroX| > GYRO_THRESHOLD) ||
    decide (|lastPublishedState.gyroY - liveSensorState.gyroY| > GYRO_THRESHOLD) ||
    decide (|lastPublishedState.gyroZ - liveSensorState.gyroZ| > GYRO_THRESHOLD)
  let rotVecChanged :=
    decide (|lastPublishedState.rotVecX - liveSensorState.rotVecX| > ROT_VEC_THRESHOLD) ||
    decide (|lastPublishedState.rotVecY - liveSensorState.rotVecY| > ROT_VEC_THRESHOLD) ||
    decide (|lastPublishedState.rotVecZ - liveSensorState.rotVecZ| > ROT_VEC_THRESHOLD)
  let locationChanged :=
    decide (lastPublishedState.latitude ≠ liveSensorState.latitude) ||
    decide (lastPublishedState.longitude ≠ liveSensorState.longitude)
  accChanged || gyroChanged || rotVecChanged || locationChanged

/-- Spec-side restatement of the gate (spec §4.2): an OR of independent
per-channel predicates, with deltas taken as current minus last published. -/
def specShouldPublish (current lastPublished : LiveSensorState) : Prop :=
  (|current.accX - lastPublished.accX| > ACCEL_THRESHOLD ∨
   |current.accY - lastPublished.accY| > ACCEL_THRESHOLD ∨
   |current.accZ - lastPublished.accZ| > ACCEL_THRESHOLD) ∨
  (|current.gyroX - lastPublished.gyroX| > GYRO_THRESHOLD ∨
   |current.gyroY - lastPublished.gyroY| > GYRO_THRESHOLD ∨
   |current.gyroZ - lastPublished.gyroZ| > GYRO_THRESHOLD) ∨
  (|current.rotVecX - lastPublished.rotVecX| > ROT_VEC_THRESHOLD ∨
   |current.rotVecY - lastPublished.rotVecY| > ROT_VEC_THRESHOLD ∨
   |current.rotVecZ - lastPublished.rotVecZ| > ROT_VEC_THRESHOLD) ∨
  (current.latitude ≠ lastPublished.latitude ∨
   current.longitude ≠ lastPublished.longitude)

/-! ## PublishScheduler tick (`sendCombinedDataPacket`, lines 435-465) -/

/-- `sendCombinedDataPacket()` translated literally.  Returns the updated
service state, the frame handed to `publishData` (`none` when the gate
fails), and the `RealTimeStats` value emitted to `DataRepository.updateStats`
at the end of every tick. -/
def sendCombinedDataPacket (sqrtFn : ℚ → ℚ) (timestamp : ℤ) (tripId : String)
    (currentLabel : ℤ) (st : ServiceState) :
    ServiceState × Option TelematicsData × RealTimeStats :=
  let out :=
    if hasStateChanged st.lastPublishedState st.liveSensorState then
      let lastPublishedState := st.liveSensorState
      let accMag := sqrtFn (lastPublishedState.accX * lastPublishedState.accX +
        lastPublishedState.accY * lastPublishedState.accY +
        lastPublishedState.accZ * lastPublishedState.accZ)
      let gyroMag := sqrtFn (lastPublishedState.gyroX * lastPublishedState.gyroX +
        lastPublishedState.gyroY * lastPublishedState.gyroY +
        lastPublishedState.gyroZ * lastPublishedState.gyroZ)
      let data : TelematicsData :=
        { timestamp := timestamp
          tripId := tripId
          label := currentLabel
          accX := lastPublishedState.accX
          accY := lastPublishedState.accY
          accZ := lastPublishedState.accZ
          accMag := accMag
          gyroX := lastPublishedState.gyroX
          gyroY := lastPublishedState.gyroY
          gyroZ := lastPublishedState.gyroZ
          gyroMag := gyroMag
          rotVecX := lastPublishedState.rotVecX
          rotVecY := lastPublishedState.rotVecY
          rotVecZ := lastPublishedState.rotVecZ
          rotVecW := lastPublishedState.rotVecW
          latitude := lastPublishedState.latitude
          longitude := lastPublishedState.longitude
          speed := lastPublishedState.speed
          altitude := lastPublishedState.altitude }
      ({ st with lastPublishedState := lastPublishedState }, some data)
    else (st, none)
  let st1 := out.1
  let liveAccMag := sqrtFn (st1.liveSensorState.accX * st1.liveSensorState.accX +
    st1.liveSensorState.accY * st1.liveSensorState.accY +
    st1.liveSensorState.accZ * st1.liveSensorState.accZ)
  let liveGyroMag := sqrtFn (st1.liveSensorState.gyroX * st1.liveSensorState.gyroX +
    st1.liveSensorState.gyroY * st1.liveSensorState.gyroY +
    st1.liveSensorState.gyroZ * st1.liveSensorState.gyroZ)
  let stats : RealTimeStats :=
    { accMag := liveAccMag
      gyroMag := liveGyroMag
      speed := st1.liveSensorState.speed
      latitude := st1.liveSensorState.latitude
      longitude := st1.liveSensorState.longitude }
  (st1, out.2, stats)

/-- Spec-side frame builder: all motion/position fields copied directly from
the snapshot, with magnitudes computed from that same snapshot's raw
components (spec §3 TelemetryFrame, §4.3 step 3). -/
def frameOfSnapshot (sqrtFn : ℚ → ℚ) (timestamp : ℤ) (tripId : String)
    (currentLabel : ℤ) (snap : LiveSensorState) : TelematicsData :=
  { timestamp := timestamp
    tripId := tripId
    label := currentLabel
    accX := snap.accX
    accY := snap.accY
    accZ := snap.accZ
    accMag := sqrtFn (snap.accX * snap.accX + snap.accY * snap.accY + snap.accZ * snap.accZ)
    gyroX := snap.gyroX
    gyroY := snap.gyroY
    gyroZ := snap.gyroZ
    gyroMag := sqrtFn (snap.gyroX * snap.gyroX + snap.gyroY * snap.gyroY + snap.gyroZ * snap.gyroZ)
    rotVecX := snap.rotVecX
    rotVecY := snap.rotVecY
    rotVecZ := snap.rotVecZ
    rotVecW := snap.rotVecW
    latitude := snap.latitude
    longitude := snap.longitude
    speed := snap.speed
    altitude := snap.altitude }

/-- Spec-side stats builder: the live (ungated) magnitudes and position that
the tick hands to `DataRepository.updateStats` (lines 461-464). -/
def statsOfLive (sqrtFn : ℚ → ℚ) (live : LiveSensorState) : RealTimeStats :=
  { accMag := sqrtFn (live.accX * live.accX + live.accY * live.accY + live.accZ * live.accZ)
    gyroMag := sqrtFn (live.gyroX * live.gyroX + live.gyroY * live.gyroY + live.gyroZ * live.gyroZ)
    speed := live.speed
    latitude := live.latitude
    longitude := live.longitude }

/-! ## Motion ingestor (`onSensorChanged`, lines 488-510) -/

/-- The sensor types the `when` in `onSensorChanged` dispatches on; `other`
stands for any type the `when` has no branch for (the event is ignored). -/
inductive SensorType where
  | accelerometer | gyroscope | rotationVector | other
  deriving DecidableEq, Repr

/-- A raw `SensorEvent`: its type and its `values` array. -/
structure SensorEvent where
  sensorType : SensorType
  values : List ℚ
  deriving DecidableEq, Repr

/-- `onSensorChanged()` translated literally, including Kotlin's evaluation
order: `event ?: return` discards a null event; each `event.values[i]` read
either yields the component or throws `ArrayIndexOutOfBoundsException`, so a
too-short array aborts mid-update.  `Except.error s` carries the state as it
stands when the exception is thrown (the fields assigned before the failing
index read remain overwritten). -/
def onSensorChanged (event : Option SensorEvent) (liveSensorState : LiveSensorState) :
    Except LiveSensorState LiveSensorState :=
  match event with
  | none => Except.ok liveSensorState
  | some e =>
    match e.sensorType with
    | SensorType.accelerometer =>
      match e.values.get? 0 with
      | none => Except.error liveSensorState
      | some v0 =>
        let s1 := { liveSensorState with accX := v0 }
        match e.values.get? 1 with
        | none => Except.error s1
        | some v1 =>
          let s2 := { s1 with accY := v1 }
          match e.values.get? 2 with
          | none => Except.error s2
          | some v2 => Except.ok { s2 with accZ := v2 }
    | SensorType.gyroscope =>
      match e.values.get? 0 with
      | none => Except.error liveSensorState
      | some v0 =>
        let s1 := { liveSensorState with gyroX := v0 }
        match e.values.get? 1 with
        | none => Except.error s1
        | some v1 =>
          let s2 := { s1 with gyroY := v1 }
          match e.values.get? 2 with
          | none => Except.error s2
          | some v2 => Except.ok { s2 with gyroZ := v2 }
    | SensorType.rotationVector =>
      match e.values.get? 0 with
      | none => Except.error liveSensorState
      | some v0 =>
        let s1 := { liveSensorState with rotVecX := v0 }
        match e.values.get? 1 with
        | none => Except.error s1
        | some v1 =>
          let s2 := { s1 with rotVecY := v1 }
          match e.values.get? 2 with
          | none => Except.error s2
          | some v2 =>
            let s3 := { s2 with rotVecZ := v2 }
            match e.values.get? 3 with
            | none => Except.error s3
            | some v3 => Except.ok { s3 with rotVecW := v3 }
    | SensorType.other => Except.ok liveSensorState

/-- Does the event carry enough components for its channel?  (`none` and
unknown types are vacuously fine: the source ignores them.) -/
def wellFormedEvent : Option SensorEvent → Bool
  | none => true
  | some e =>
    match e.sensorType with
    | SensorType.accelerometer => decide (3 ≤ e.values.length)
    | SensorType.gyroscope => decide (3 ≤ e.values.length)
    | SensorType.rotationVector => decide (4 ≤ e.values.length)
    | SensorType.other => true

/-- Spec-side description of a complete per-channel update: either the event
is discarded or every field of its channel is overwritten at once (spec
§4.1). -/
def applySensorEventSpec (event : Option SensorEvent) (s : LiveSensorState) :
    LiveSensorState :=
  match event with
  | none => s
  | some e =>
    match e.sensorType with
    | SensorType.accelerometer =>
      match e.values with
      | x :: y :: z :: _ => { s with accX := x, accY := y, accZ := z }
      | _ => s
    | SensorType.gyroscope =>
      match e.values with
      | x :: y :: z :: _ => { s with gyroX := x, gyroY := y, gyroZ := z }
      | _ => s
    | SensorType.rotationVector =>
      match e.values with
      | x :: y :: z :: w :: _ => { s with rotVecX := x, rotVecY := y, rotVecZ := z, rotVecW := w }
      | _ => s
    | SensorType.other => s

/-! ## Location ingestor (`locationCallback`, lines 515-526) -/

/-- A location fix as delivered by `onLocationResult` (`lastLocation` may be
null, in which case the `let` body is skipped). -/
structure LocationFix where
  latitude : ℚ
  longitude : ℚ
  speed : ℚ
  altitude : ℚ
  deriving DecidableEq, Repr

/-- `locationCallback.onLocationResult()` translated literally. -/
def onLocationResult (fix : Option LocationFix) (s : LiveSensorState) : LiveSensorState :=
  match fix with
  | none => s
  | some l =>
    { s with latitude := l.latitude, longitude := l.longitude,
             speed := l.speed, altitude := l.altitude }

/-! ## Session traces

A session run interleaves ingestor callbacks with scheduler ticks.  Readings
are given per channel with their full component sets (the shape in which the
hardware callbacks deliver them); the bridge lemmas below tie `applyReading`
back to the literal `onSensorChanged` / `onLocationResult` translations. -/

/-- One applied reading on one channel. -/
inductive Reading where
  | accel (x y z : ℚ)
  | gyro (x y z : ℚ)
  | rotVec (x y z w : ℚ)
  | loc (latitude longitude speed altitude : ℚ)
  deriving DecidableEq, Repr

/-- The LiveState mutation a reading performs (only its own channel's
fields). -/
def applyReading : Reading → LiveSensorState → LiveSensorState
  | Reading.accel x y z, s => { s with accX := x, accY := y, accZ := z }
  | Reading.gyro x y z, s => { s with gyroX := x, gyroY := y, gyroZ := z }
  | Reading.rotVec x y z w, s =>
      { s with rotVecX := x, rotVecY := y, rotVecZ := z, rotVecW := w }
  | Reading.loc la lo sp al, s =>
      { s with latitude := la, longitude := lo, speed := sp, altitude := al }

/-- One event in a session trace: a hardware callback or a scheduler tick. -/
inductive Step where
  | read (r : Reading)
  | tick (timestamp : ℤ)
  deriving DecidableEq, Repr

/-- Observable outputs of a run: frames handed to `publishData` and stats
emissions handed to `DataRepository.updateStats`. -/
inductive Output where
  | frame (d : TelematicsData)
  | stats (st : RealTimeStats)
  deriving DecidableEq, Repr

/-- Effect of one trace step on the service state, with its outputs.  A
reading mutates `liveSensorState` and emits nothing (the authoritative
`onSensorChanged` / `locationCallback` only write the state); a tick runs
`sendCombinedDataPacket`. -/
def stepSession (sqrtFn : ℚ → ℚ) (tripId : String) (currentLabel : ℤ)
    (st : ServiceState) : Step → ServiceState × List Output
  | Step.read r => ({ st with liveSensorState := applyReading r st.liveSensorState }, [])
  | Step.tick ts =>
    let out := sendCombinedDataPacket sqrtFn ts tripId currentLabel st
    (out.1,
     (match out.2.1 with
      | some d => [Output.frame d]
      | none => []) ++ [Output.stats out.2.2])

/-- Run a whole trace, accumulating outputs in order. -/
def runSession (sqrtFn : ℚ → ℚ) (tripId : String) (currentLabel : ℤ)
    (st : ServiceState) : List Step → ServiceState × List Output
  | [] => (st, [])
  | s :: rest =>
    let out := stepSession sqrtFn tripId currentLabel st s
    let outRest := runSession sqrtFn tripId currentLabel out.1 rest
    (outRest.1, out.2 ++ outRest.2)

def isFrameOutput : Output → Bool
  | Output.frame _ => true
  | Output.stats _ => false

def isStatsOutput : Output → Bool
  | Output.frame _ => false
  | Output.stats _ => true

/-- Number of frames handed to the transport in an output list. -/
def countFrames (outs : List Output) : ℕ := outs.countP isFrameOutput

/-- Number of local stats emissions in an output list. -/
def countStats (outs : List Output) : ℕ := outs.countP isStatsOutput

/-- Number of scheduler ticks in a trace. -/
def countTicks (steps : List Step) : ℕ :=
  steps.countP fun s => match s with | Step.tick _ => true | _ => false

/-- Number of reading (mutation) steps in a trace. -/
def countReads (steps : List Step) : ℕ :=
  steps.countP fun s => match s with | Step.read _ => true | _ => false

/-! ## Transport (`MqttClient.kt`) -/

/-- The observable state of the `MqttClient` wrapper: the Paho client's
connection flag, the list of payloads actually handed to the broker client,
and the number of dropped-publish warnings logged. -/
structure MqttClientState where
  isConnected : Bool
  published : List String
  droppedLogs : ℕ
  deriving DecidableEq, Repr

/-- `MqttClient.publish()` (lines 82-96) translated literally: if the client
is not connected, log a warning and return (the frame is dropped); otherwise
hand the payload to the broker client on the fixed topic. -/
def mqttPublish (payload : String) (c : MqttClientState) : MqttClientState :=
  if !c.isConnected then { c with droppedLogs := c.droppedLogs + 1 }
  else { c with published := c.published ++ [payload] }

/-- The asynchronous events the Paho client delivers to the callbacks
installed by `connect` (lines 46-75).  `connectComplete true` is the event
fired after an automatic reconnect; `connectComplete false` follows the
initial successful connection attempt. -/
inductive PahoEvent where
  | connectComplete (reconnect : Bool)
  | connectionLost
  | connectFailure
  deriving DecidableEq, Repr

/-- What `connect` reports to its caller. -/
inductive CallerNotice where
  | ready
  | failed
  deriving DecidableEq, Repr

/-- The callback object `connect` installs (lines 46-75), as a map from a
Paho event to the caller notifications it produces: `connectComplete` calls
`onSuccess()` unconditionally (the `reconnect` flag is only logged),
`connectionLost` only logs, and the action listener's `onFailure` forwards
the failure. -/
def connectCallbackNotices : PahoEvent → List CallerNotice
  | PahoEvent.connectComplete _ => [CallerNotice.ready]
  | PahoEvent.connectionLost => []
  | PahoEvent.connectFailure => [CallerNotice.failed]

/-- All caller notifications produced by one `connect()` call (lines 23-80)
over the lifetime of the connection, given the already-connected flag at call
time and the subsequent Paho events: if already connected, `onSuccess()` is
invoked immediately and `connect` returns without installing callbacks or
dialing; otherwise every later Paho event is handled by the installed
callback object. -/
def connectNotices (isConnected : Bool) (events : List PahoEvent) : List CallerNotice :=
  if isConnected then [CallerNotice.ready]
  else (events.map connectCallbackNotices).flatten

/-- Whether `connect()` reaches `mqttClient.connect(options, ...)` (line 65),
i.e. dials a new connection: only when not already connected. -/
def connectOpensConnection (isConnected : Bool) : Bool := !isConnected

def isReadyNotice : CallerNotice → Bool
  | CallerNotice.ready => true
  | CallerNotice.failed => false

def isConnectCompleteEvent : PahoEvent → Bool
  | PahoEvent.connectComplete _ => true
  | _ => false

/-- Number of `onSuccess()` invocations in a notice list. -/
def countReady (l : List CallerNotice) : ℕ := l.countP isReadyNotice

/-! ## Bridge lemmas: the trace-level `applyReading` agrees with the literal
callback translations on well-formed deliveries. -/

theorem onSensorChanged_accel_eq (x y z : ℚ) (rest : List ℚ) (s : LiveSensorState) :
    onSensorChanged (some ⟨SensorType.accelerometer, x :: y :: z :: rest⟩) s =
      Except.ok (applyReading (Reading.accel x y z) s) := rfl

theorem onSensorChanged_gyro_eq (x y z : ℚ) (rest : List ℚ) (s : LiveSensorState) :
    onSensorChanged (some ⟨SensorType.gyroscope, x :: y :: z :: rest⟩) s =
      Except.ok (applyReading (Reading.gyro x y z) s) := rfl

theorem onSensorChanged_rotVec_eq (x y z w : ℚ) (rest : List ℚ) (s : LiveSensorState) :
    onSensorChanged (some ⟨SensorType.rotationVector, x :: y :: z :: w :: rest⟩) s =
      Except.ok (applyReading (Reading.rotVec x y z w) s) := rfl

theorem onLocationResult_eq (la lo sp al : ℚ) (s : LiveSensorState) :
    onLocationResult (some ⟨la, lo, sp, al⟩) s =
      applyReading (Reading.loc la lo sp al) s := rfl

/-! ## C1 -/

/-- C1: the ChangeGate decision `hasStateChanged` is a pure function of the
two snapshots and holds exactly when the OR of the independent per-channel
predicates holds: some accelerometer axis delta exceeds 0.5, or some
gyroscope axis delta exceeds 0.3, or some rotation-vector x/y/z axis delta
exceeds 0.05 (all deltas as absolute values), or latitude or longitude
differs by any nonzero amount.  Any single threshold crossing suffices. -/
theorem hasStateChanged_iff_spec (lastPublished current : LiveSensorState) :
    hasStateChanged lastPublished current = true ↔ specShouldPublish current lastPublished := by
  unfold hasStateChanged specShouldPublish
  simp only [Bool.or_eq_true, decide_eq_true_eq]
  rw [abs_sub_comm current.accX, abs_sub_comm current.accY, abs_sub_comm current.accZ,
    abs_sub_comm current.gyroX, abs_sub_comm current.gyroY, abs_sub_comm current.gyroZ,
    abs_sub_comm current.rotVecX, abs_sub_comm current.rotVecY, abs_sub_comm current.rotVecZ,
    ne_comm (a := current.latitude), ne_comm (a := current.longitude)]
  tauto

/-! ## C2 -/

/-- C2: on a tick whose gate evaluates true, exactly one `TelemetryFrame` is
produced (the outputs are the single frame plus the stats emission, never
more and never a merged frame), its fields are all copied from the live
snapshot (with magnitudes computed from it), and `lastPublishedState` becomes
that snapshot; on a tick whose gate evaluates false, no frame is produced and
`lastPublishedState` is unchanged. -/
theorem tick_publishes_exactly_one_frame (sqrtFn : ℚ → ℚ) (tripId : String)
    (currentLabel : ℤ) (ts : ℤ) (st : ServiceState) :
    stepSession sqrtFn tripId currentLabel st (Step.tick ts) =
      if hasStateChanged st.lastPublishedState st.liveSensorState then
        ({ liveSensorState := st.liveSensorState, lastPublishedState := st.liveSensorState },
         [Output.frame (frameOfSnapshot sqrtFn ts tripId currentLabel st.liveSensorState),
          Output.stats (statsOfLive sqrtFn st.liveSensorState)])
      else
        (st, [Output.stats (statsOfLive sqrtFn st.liveSensorState)]) := by
  cases h : hasStateChanged st.lastPublishedState st.liveSensorState <;>
    simp [stepSession, sendCombinedDataPacket, h, frameOfSnapshot, statsOfLive]

/-- The gate never fires when the live state equals the last published state:
all deltas are zero and the thresholds are positive. -/
theorem hasStateChanged_self (s : LiveSensorState) : hasStateChanged s s = false := by
  norm_num [hasStateChanged, ACCEL_THRESHOLD, GYRO_THRESHOLD, ROT_VEC_THRESHOLD]

/-! ## C3 -/

/-- C3 counterexample: at session start both `liveSensorState` and
`lastPublishedState` are the same `LiveSensorState()` value, so in the
initial state where no sensor or location reading has yet arrived the first
tick's gate evaluates false and NO frame is produced — refuting "the very
first scheduler tick of every session publishes a frame, for every initial
LiveState". -/
theorem firstTick_baseline_counterexample :
    (sendCombinedDataPacket (fun q => q) 0 ("trip") 0 initialServiceState).2.1 = none ∧
      hasStateChanged initialServiceState.lastPublishedState
        initialServiceState.liveSensorState = false := by
  have hg : hasStateChanged initialLiveSensorState initialLiveSensorState = false :=
    hasStateChanged_self _
  refine ⟨?_, ?_⟩ <;> simp [sendCombinedDataPacket, initialServiceState, hg]

/-- C3 amended: because `lastPublishedState` is initialised to the
all-zero/identity `LiveSensorState()`, the first tick publishes a frame
exactly when the live state at that tick already passes the gate against that
zeroed baseline; in particular, when no reading has arrived (live state still
equal to the baseline) the first tick publishes nothing. -/
theorem firstTick_publishes_iff_gate (sqrtFn : ℚ → ℚ) (ts : ℤ) (tripId : String)
    (currentLabel : ℤ) (live : LiveSensorState) :
    ((sendCombinedDataPacket sqrtFn ts tripId currentLabel
        { liveSensorState := live, lastPublishedState := initialLiveSensorState }).2.1).isSome
      = hasStateChanged initialLiveSensorState live := by
  cases h : hasStateChanged initialLiveSensorState live <;>
    simp [sendCombinedDataPacket, h]

/-! ## C8 -/

/-- C8: a `publish` call while the connection is down drops the frame and
records the drop (one warning logged), transmits nothing, queues nothing for
retry, and leaves every other part of the client state unchanged (the record
update touches only the drop counter; in particular `published` and
`isConnected` are untouched, and the running flag lives in `DataRepository`,
which `publish` never calls). -/
theorem publish_disconnected_drops (payload : String) (c : MqttClientState)
    (h : c.isConnected = false) :
    mqttPublish payload c = { c with droppedLogs := c.droppedLogs + 1 } := by
  simp [mqttPublish, h]

/-- Witness for C8 at a concrete disconnected client. -/
theorem publish_disconnected_drops_witness :
    mqttPublish ("payload")
        { isConnected := false, published := [], droppedLogs := 0 } =
      { isConnected := false, published := [], droppedLogs := 1 } :=
  publish_disconnected_drops ("payload")
    { isConnected := false, published := [], droppedLogs := 0 } rfl

/-! ## C9 -/

/-- C9: every frame the tick produces has `accMag` equal to the square root
of the sum of squares of the raw accelerometer components of the snapshot
used for that frame (which are the frame's own `accX`/`accY`/`accZ`), and
likewise `gyroMag`; the magnitudes are computed at frame-build time by
applying the square-root function to the snapshot's raw components (the
`LiveSensorState` structure stores no magnitude field to cache them). -/
theorem frame_magnitudes_from_snapshot (sqrtFn : ℚ → ℚ) (ts : ℤ) (tripId : String)
    (currentLabel : ℤ) (st : ServiceState) (f : TelematicsData)
    (h : (sendCombinedDataPacket sqrtFn ts tripId currentLabel st).2.1 = some f) :
    f.accMag = sqrtFn (f.accX * f.accX + f.accY * f.accY + f.accZ * f.accZ) ∧
      f.gyroMag = sqrtFn (f.gyroX * f.gyroX + f.gyroY * f.gyroY + f.gyroZ * f.gyroZ) ∧
      f.accX = st.liveSensorState.accX ∧ f.accY = st.liveSensorState.accY ∧
      f.accZ = st.liveSensorState.accZ ∧ f.gyroX = st.liveSensorState.gyroX ∧
      f.gyroY = st.liveSensorState.gyroY ∧ f.gyroZ = st.liveSensorState.gyroZ := by
  by_cases hg : hasStateChanged st.lastPublishedState st.liveSensorState = true
  · simp only [sendCombinedDataPacket, hg, if_true] at h
    obtain rfl : frameOfSnapshot sqrtFn ts tripId currentLabel st.liveSensorState = f := by
      simpa [frameOfSnapshot] using h
    simp [frameOfSnapshot]
  · simp only [Bool.not_eq_true] at hg
    simp [sendCombinedDataPacket, hg] at h

/-- A concrete state whose gate passes on the first tick (accelerometer z
reads 10). -/
def exLiveState : LiveSensorState := { accZ := 10 }

/-- The frame that tick produces with the identity standing in for the
square-root function. -/
def exFrame : TelematicsData :=
  frameOfSnapshot (fun q => q) 0 ("trip") 0 exLiveState

/-- The concrete gate passes: the accelerometer z delta from the zero
baseline is 10 > 0.5. -/
theorem hasStateChanged_exLiveState :
    hasStateChanged initialLiveSensorState exLiveState = true := by
  norm_num [hasStateChanged, initialLiveSensorState, exLiveState, ACCEL_THRESHOLD, lt_abs]

/-- The tick from the concrete state emits exactly `exFrame`. -/
theorem sendCombined_exLiveState :
    (sendCombinedDataPacket (fun q => q) 0 ("trip") 0
      { liveSensorState := exLiveState, lastPublishedState := initialLiveSensorState }).2.1
      = some exFrame := by
  simp [sendCombinedDataPacket, hasStateChanged_exLiveState, exFrame, frameOfSnapshot]

/-- Witness for C9 at a concrete gate-passing tick. -/
theorem frame_magnitudes_from_snapshot_witness :
    exFrame.accMag =
        (fun q => q) (exFrame.accX * exFrame.accX + exFrame.accY * exFrame.accY +
          exFrame.accZ * exFrame.accZ) ∧
      exFrame.gyroMag =
        (fun q => q) (exFrame.gyroX * exFrame.gyroX + exFrame.gyroY * exFrame.gyroY +
          exFrame.gyroZ * exFrame.gyroZ) :=
  ⟨(frame_magnitudes_from_snapshot (fun q => q) 0 ("trip") 0
      { liveSensorState := exLiveState, lastPublishedState := initialLiveSensorState }
      exFrame sendCombined_exLiveState).1,
   (frame_magnitudes_from_snapshot (fun q => q) 0 ("trip") 0
      { liveSensorState := exLiveState, lastPublishedState := initialLiveSensorState }
      exFrame sendCombined_exLiveState).2.1⟩

/-! ## C10 -/

/-- The live state agrees with the last published state on every gate-checked
channel: all accelerometer, gyroscope and rotation-vector x/y/z axes and
latitude/longitude (speed, altitude and `rotVecW` are unconstrained). -/
def agreesOnGatedChannels (lastPublished live : LiveSensorState) : Prop :=
  lastPublished.accX = live.accX ∧ lastPublished.accY = live.accY ∧
  lastPublished.accZ = live.accZ ∧ lastPublished.gyroX = live.gyroX ∧
  lastPublished.gyroY = live.gyroY ∧ lastPublished.gyroZ = live.gyroZ ∧
  lastPublished.rotVecX = live.rotVecX ∧ lastPublished.rotVecY = live.rotVecY ∧
  lastPublished.rotVecZ = live.rotVecZ ∧ lastPublished.latitude = live.latitude ∧
  lastPublished.longitude = live.longitude

instance (a b : LiveSensorState) : Decidable (agreesOnGatedChannels a b) := by
  unfold agreesOnGatedChannels; infer_instance

/-- C10: when the live state differs from the last published state only in
speed and/or altitude (every accelerometer, gyroscope and rotation-vector
axis and latitude/longitude unchanged), the gate returns false, the tick
sends no frame, and the service state is unchanged — so the latest speed and
altitude values never by themselves reach the collector. -/
theorem speed_altitude_never_gate (sqrtFn : ℚ → ℚ) (ts : ℤ) (tripId : String)
    (currentLabel : ℤ) (st : ServiceState)
    (h : agreesOnGatedChannels st.lastPublishedState st.liveSensorState) :
    hasStateChanged st.lastPublishedState st.liveSensorState = false ∧
      (sendCombinedDataPacket sqrtFn ts tripId currentLabel st).2.1 = none ∧
      (sendCombinedDataPacket sqrtFn ts tripId currentLabel st).1 = st := by
  obtain ⟨h1, h2, h3, h4, h5, h6, h7, h8, h9, h10, h11⟩ := h
  have hg : hasStateChanged st.lastPublishedState st.liveSensorState = false := by
    unfold hasStateChanged
    norm_num [h1, h2, h3, h4, h5, h6, h7, h8, h9, h10, h11, ACCEL_THRESHOLD,
      GYRO_THRESHOLD, ROT_VEC_THRESHOLD]
  refine ⟨hg, ?_, ?_⟩ <;> simp [sendCombinedDataPacket, hg]

/-- Witness for C10: live state differing from the baseline only in speed
and altitude does not publish. -/
theorem speed_altitude_never_gate_witness :
    hasStateChanged initialLiveSensorState { speed := 5, altitude := 7 } = false ∧
      (sendCombinedDataPacket (fun q => q) 0 ("trip") 0
        { liveSensorState := { speed := 5, altitude := 7 },
          lastPublishedState := initialLiveSensorState }).2.1 = none :=
  ⟨(speed_altitude_never_gate (fun q => q) 0 ("trip") 0
      { liveSensorState := { speed := 5, altitude := 7 },
        lastPublishedState := initialLiveSensorState } (by decide)).1,
   (speed_altitude_never_gate (fun q => q) 0 ("trip") 0
      { liveSensorState := { speed := 5, altitude := 7 },
        lastPublishedState := initialLiveSensorState } (by decide)).2.1⟩

/-- Splitting frame counts over concatenated outputs. -/
theorem countFrames_append (a b : List Output) :
    countFrames (a ++ b) = countFrames a + countFrames b := by
  simp [countFrames, List.countP_append]

/-- Splitting stats counts over concatenated outputs. -/
theorem countStats_append (a b : List Output) :
    countStats (a ++ b) = countStats a + countStats b := by
  simp [countStats, List.countP_append]

/-! ## C5 -/

/-- C5 counterexample: one accepted accelerometer mutation with no tick in
between produces ZERO stats emissions — in the authoritative service,
`onSensorChanged` only writes `liveSensorState`; the `DataRepository`
emission happens inside `sendCombinedDataPacket`, so it is tied to the 10 Hz
tick, not to mutations.  This refutes "every accepted LiveState mutation
triggers one StateBroadcaster emission ... at native sensor rate". -/
theorem mutation_emission_counterexample :
    countStats (runSession (fun q => q) ("trip") 0 initialServiceState
        [Step.read (Reading.accel 1 2 3)]).2 = 0 ∧
      countReads [Step.read (Reading.accel 1 2 3)] = 1 := by
  exact ⟨rfl, rfl⟩

/-- C5 amended: local stats emissions occur exactly once per scheduler tick,
for every trace and state — emitted on a tick whether or not the gate passes
(so they are independent of the ChangeGate outcome), and never on a
mutation. -/
theorem stats_emitted_per_tick (sqrtFn : ℚ → ℚ) (tripId : String) (currentLabel : ℤ) :
    ∀ (steps : List Step) (st : ServiceState),
      countStats (runSession sqrtFn tripId currentLabel st steps).2 = countTicks steps := by
  intro steps
  induction steps with
  | nil => intro st; rfl
  | cons s rest ih =>
    intro st
    show countStats ((stepSession sqrtFn tripId currentLabel st s).2 ++
      (runSession sqrtFn tripId currentLabel
        (stepSession sqrtFn tripId currentLabel st s).1 rest).2) = countTicks (s :: rest)
    rw [countStats_append, ih]
    cases s with
    | read r => simp [stepSession, countStats, countTicks, List.countP_cons]
    | tick ts =>
      have hone : countStats (stepSession sqrtFn tripId currentLabel st (Step.tick ts)).2 = 1 := by
        cases hopt : (sendCombinedDataPacket sqrtFn ts tripId currentLabel st).2.1 <;>
          simp [stepSession, hopt, countStats, isStatsOutput]
      rw [hone]
      simp [countTicks, List.countP_cons]
      omega

/-! ## C7 -/

/-- C7 counterexample: one successful connection attempt
(`connectComplete false`), a transient connection loss, and one automatic
reconnect (`connectComplete true`) make the installed callback invoke the
ready notification TWICE — the callback calls `onSuccess()` on every
`connectComplete`, ignoring the `reconnect` flag.  This refutes "notifies
the caller via the ready callback exactly once per successful connection
attempt (never again on later automatic reconnects)". -/
theorem reconnect_ready_counterexample :
    countReady (connectNotices false
      [PahoEvent.connectComplete false, PahoEvent.connectionLost,
       PahoEvent.connectComplete true]) = 2 := rfl

/-- C7 amended: the ready callback fires exactly once per `connectComplete`
event — once for the initial successful attempt AND once more for every later
automatic reconnect; calling `connect` while already connected immediately
signals ready exactly once and does not dial a new connection. -/
theorem connect_ready_per_connectComplete :
    (∀ events, countReady (connectNotices false events) =
        events.countP isConnectCompleteEvent) ∧
      (∀ events, connectNotices true events = [CallerNotice.ready]) ∧
      connectOpensConnection true = false := by
  refine ⟨?_, fun events => rfl, rfl⟩
  intro events
  induction events with
  | nil => rfl
  | cons e rest ih =>
    cases e <;>
      simp_all [connectNotices, connectCallbackNotices, countReady, isReadyNotice,
        isConnectCompleteEvent, List.countP_cons, List.countP_append]

/-! ## C6 -/

/-- C6 counterexample: an accelerometer event whose `values` array has only
two components makes `onSensorChanged` read `event.values[2]` out of bounds,
throwing AFTER `accX` and `accY` were already overwritten — the ingestor both
crashes and leaves a partial overwrite, refuting "the ingestor either applies
a complete per-channel update or discards the reading silently: it never
partially overwrites LiveState and never crashes". -/
theorem short_values_counterexample :
    onSensorChanged (some ⟨SensorType.accelerometer, [1, 2]⟩) initialLiveSensorState
        = Except.error { initialLiveSensorState with accX := 1, accY := 2 } ∧
      ({ initialLiveSensorState with accX := 1, accY := 2 } : LiveSensorState)
        ≠ initialLiveSensorState := by
  refine ⟨rfl, fun hcontra => ?_⟩
  have : (({ initialLiveSensorState with accX := 1, accY := 2 } :
      LiveSensorState)).accX = initialLiveSensorState.accX := congrArg LiveSensorState.accX hcontra
  simp [initialLiveSensorState] at this

/-- C6 amended: a null event is discarded silently and an event carrying at
least as many components as its channel requires applies a complete
per-channel update (unknown channels are ignored); but an event with fewer
components than required is outside this guarantee — it throws an
out-of-bounds exception and can leave `LiveSensorState` partially
overwritten. -/
theorem onSensorChanged_wellFormed_total (ev : Option SensorEvent) (s : LiveSensorState)
    (h : wellFormedEvent ev = true) :
    onSensorChanged ev s = Except.ok (applySensorEventSpec ev s) := by
  cases ev with
  | none => rfl
  | some e =>
    obtain ⟨ty, vs⟩ := e
    cases ty with
    | accelerometer =>
      simp only [wellFormedEvent, decide_eq_true_eq] at h
      cases vs with
      | nil => simp at h
      | cons x vs1 =>
        cases vs1 with
        | nil => simp at h
        | cons y vs2 =>
          cases vs2 with
          | nil => simp at h
          | cons z rest => rfl
    | gyroscope =>
      simp only [wellFormedEvent, decide_eq_true_eq] at h
      cases vs with
      | nil => simp at h
      | cons x vs1 =>
        cases vs1 with
        | nil => simp at h
        | cons y vs2 =>
          cases vs2 with
          | nil => simp at h
          | cons z rest => rfl
    | rotationVector =>
      simp only [wellFormedEvent, decide_eq_true_eq] at h
      cases vs with
      | nil => simp at h
      | cons x vs1 =>
        cases vs1 with
        | nil => simp at h
        | cons y vs2 =>
          cases vs2 with
          | nil => simp at h
          | cons z vs3 =>
            cases vs3 with
            | nil => simp at h
            | cons w rest => rfl
    | other => rfl

/-- Witness for C6 amended at a complete concrete accelerometer event. -/
theorem onSensorChanged_wellFormed_total_witness :
    wellFormedEvent (some ⟨SensorType.accelerometer, [1, 2, 3]⟩) = true ∧
      onSensorChanged (some ⟨SensorType.accelerometer, [1, 2, 3]⟩) initialLiveSensorState
        = Except.ok (applySensorEventSpec (some ⟨SensorType.accelerometer, [1, 2, 3]⟩)
            initialLiveSensorState) :=
  ⟨rfl, onSensorChanged_wellFormed_total _ _ rfl⟩

/-! ## C4 -/

/-- Successive deltas of a reading sequence (including the step from the
zeroed baseline when it is listed first) all stay within the threshold `t` —
the hypothesis of the claim, stated on the per-axis reading values. -/
def succDeltasWithin (t : ℚ) : List ℚ → Bool
  | a :: b :: rest => decide (|a - b| ≤ t) && succDeltasWithin t (b :: rest)
  | _ => true

/-- The live state stays within every gate threshold of the base state: all
nine motion-axis deltas are at most their channel's threshold and
latitude/longitude agree exactly (so the gate cannot fire). -/
def withinGateThresholds (base live : LiveSensorState) : Prop :=
  |base.accX - live.accX| ≤ ACCEL_THRESHOLD ∧
  |base.accY - live.accY| ≤ ACCEL_THRESHOLD ∧
  |base.accZ - live.accZ| ≤ ACCEL_THRESHOLD ∧
  |base.gyroX - live.gyroX| ≤ GYRO_THRESHOLD ∧
  |base.gyroY - live.gyroY| ≤ GYRO_THRESHOLD ∧
  |base.gyroZ - live.gyroZ| ≤ GYRO_THRESHOLD ∧
  |base.rotVecX - live.rotVecX| ≤ ROT_VEC_THRESHOLD ∧
  |base.rotVecY - live.rotVecY| ≤ ROT_VEC_THRESHOLD ∧
  |base.rotVecZ - live.rotVecZ| ≤ ROT_VEC_THRESHOLD ∧
  base.latitude = live.latitude ∧ base.longitude = live.longitude

instance (a b : LiveSensorState) : Decidable (withinGateThresholds a b) := by
  unfold withinGateThresholds; infer_instance

/-- A single reading keeps the live state within the thresholds of `base`:
its channel's new values are within that channel's threshold of `base` (for
a location fix, the same latitude/longitude; speed, altitude and the
rotation-vector w component are unconstrained, as the gate ignores them). -/
def readingWithin (base : LiveSensorState) : Reading → Prop
  | Reading.accel x y z =>
      |base.accX - x| ≤ ACCEL_THRESHOLD ∧ |base.accY - y| ≤ ACCEL_THRESHOLD ∧
      |base.accZ - z| ≤ ACCEL_THRESHOLD
  | Reading.gyro x y z =>
      |base.gyroX - x| ≤ GYRO_THRESHOLD ∧ |base.gyroY - y| ≤ GYRO_THRESHOLD ∧
      |base.gyroZ - z| ≤ GYRO_THRESHOLD
  | Reading.rotVec x y z _w =>
      |base.rotVecX - x| ≤ ROT_VEC_THRESHOLD ∧ |base.rotVecY - y| ≤ ROT_VEC_THRESHOLD ∧
      |base.rotVecZ - z| ≤ ROT_VEC_THRESHOLD
  | Reading.loc la lo _sp _al => base.latitude = la ∧ base.longitude = lo

instance (base : LiveSensorState) (r : Reading) : Decidable (readingWithin base r) := by
  cases r <;> (unfold readingWithin; infer_instance)

/-- When the live state is within every threshold of the last published
state, the gate does not fire. -/
theorem gate_false_of_within {base live : LiveSensorState}
    (h : withinGateThresholds base live) : hasStateChanged base live = false := by
  obtain ⟨h1, h2, h3, h4, h5, h6, h7, h8, h9, h10, h11⟩ := h
  unfold hasStateChanged
  simp only [Bool.or_eq_false_iff, decide_eq_false_iff_not, not_lt, not_not, ne_eq,
    Decidable.not_not]
  tauto

/-- Applying a reading that is within thresholds of `base` to a live state
that is within thresholds of `base` keeps the live state within thresholds
of `base`. -/
theorem within_apply {base live : LiveSensorState} {r : Reading}
    (hw : withinGateThresholds base live) (hr : readingWithin base r) :
    withinGateThresholds base (applyReading r live) := by
  obtain ⟨h1, h2, h3, h4, h5, h6, h7, h8, h9, h10, h11⟩ := hw
  cases r with
  | accel x y z =>
    exact ⟨hr.1, hr.2.1, hr.2.2, h4, h5, h6, h7, h8, h9, h10, h11⟩
  | gyro x y z =>
    exact ⟨h1, h2, h3, hr.1, hr.2.1, hr.2.2, h7, h8, h9, h10, h11⟩
  | rotVec x y z w =>
    exact ⟨h1, h2, h3, h4, h5, h6, hr.1, hr.2.1, hr.2.2, h10, h11⟩
  | loc la lo sp al =>
    exact ⟨h1, h2, h3, h4, h5, h6, h7, h8, h9, hr.1, hr.2⟩

/-- C4 amended: as long as every reading keeps the live state within each
gate threshold OF THE LAST PUBLISHED STATE (not merely within threshold of
the previous reading) and location readings repeat the published
latitude/longitude, no tick publishes anything and the last published state
never changes.  (The claim's own successive-delta hypothesis is refuted by
`smallSuccDeltas_counterexample`: deltas accumulate against the fixed last
published state.) -/
theorem withinThreshold_no_further_publish (sqrtFn : ℚ → ℚ) (tripId : String)
    (currentLabel : ℤ) :
    ∀ (steps : List Step) (st : ServiceState),
      withinGateThresholds st.lastPublishedState st.liveSensorState →
      (∀ r, Step.read r ∈ steps → readingWithin st.lastPublishedState r) →
      countFrames (runSession sqrtFn tripId currentLabel st steps).2 = 0 ∧
        (runSession sqrtFn tripId currentLabel st steps).1.lastPublishedState =
          st.lastPublishedState := by
  intro steps
  induction steps with
  | nil => intro st _ _; exact ⟨rfl, rfl⟩
  | cons s rest ih =>
    intro st hw hr
    cases s with
    | read r =>
      have hw' : withinGateThresholds st.lastPublishedState
          (applyReading r st.liveSensorState) :=
        within_apply hw (hr r (List.mem_cons_self _ _))
      have hrec := ih { st with liveSensorState := applyReading r st.liveSensorState }
        hw' (fun r' hm => hr r' (List.mem_cons_of_mem _ hm))
      constructor
      · show countFrames ((stepSession sqrtFn tripId currentLabel st (Step.read r)).2 ++
          (runSession sqrtFn tripId currentLabel
            (stepSession sqrtFn tripId currentLabel st (Step.read r)).1 rest).2) = 0
        rw [countFrames_append]
        have h0 : countFrames (stepSession sqrtFn tripId currentLabel st (Step.read r)).2 = 0 := rfl
        rw [h0, Nat.zero_add]
        exact hrec.1
      · exact hrec.2
    | tick ts =>
      have hg : hasStateChanged st.lastPublishedState st.liveSensorState = false :=
        gate_false_of_within hw
      have hrec := ih st hw (fun r' hm => hr r' (List.mem_cons_of_mem _ hm))
      have hst1 : (stepSession sqrtFn tripId currentLabel st (Step.tick ts)).1 = st := by
        simp [stepSession, sendCombinedDataPacket, hg]
      have h0 : countFrames (stepSession sqrtFn tripId currentLabel st (Step.tick ts)).2 = 0 := by
        simp [stepSession, sendCombinedDataPacket, hg, countFrames, isFrameOutput]
      constructor
      · show countFrames ((stepSession sqrtFn tripId currentLabel st (Step.tick ts)).2 ++
          (runSession sqrtFn tripId currentLabel
            (stepSession sqrtFn tripId currentLabel st (Step.tick ts)).1 rest).2) = 0
        rw [countFrames_append, h0, hst1, Nat.zero_add]
        exact hrec.1
      · show (runSession sqrtFn tripId currentLabel
            (stepSession sqrtFn tripId currentLabel st (Step.tick ts)).1
            rest).1.lastPublishedState = st.lastPublishedState
        rw [hst1]
        exact hrec.2

/-- Live state after the accelerometer reads x = 0.4 (all else baseline). -/
def s04 : LiveSensorState := { accX := 2/5 }

/-- Live state after the accelerometer reads x = 0.8. -/
def s08 : LiveSensorState := { accX := 4/5 }

/-- Live state after the accelerometer reads x = 1.2. -/
def s12 : LiveSensorState := { accX := 6/5 }

theorem gate_base_s04 : hasStateChanged initialLiveSensorState s04 = false := by
  norm_num [hasStateChanged, initialLiveSensorState, s04, ACCEL_THRESHOLD,
    GYRO_THRESHOLD, ROT_VEC_THRESHOLD, lt_abs]

theorem gate_base_s08 : hasStateChanged initialLiveSensorState s08 = true := by
  norm_num [hasStateChanged, initialLiveSensorState, s08, ACCEL_THRESHOLD,
    GYRO_THRESHOLD, ROT_VEC_THRESHOLD, lt_abs]

theorem gate_s08_s12 : hasStateChanged s08 s12 = false := by
  norm_num [hasStateChanged, s08, s12, ACCEL_THRESHOLD,
    GYRO_THRESHOLD, ROT_VEC_THRESHOLD, lt_abs]

/-- C4 counterexample: accelerometer x readings 0.4, 0.8, 1.2 from the zero
baseline have every successive delta (0.4) within the 0.5 threshold, and no
other channel ever changes; yet because the gate compares against the FIXED
last published state, the deltas accumulate: the first tick publishes
nothing, and one further publish occurs at the second tick — refuting "after
the first tick exactly zero further publishes occur over the rest of the
session". -/
theorem smallSuccDeltas_counterexample :
    succDeltasWithin ACCEL_THRESHOLD [0, 2/5, 4/5, 6/5] = true ∧
      countFrames (runSession (fun q => q) ("trip") 0 initialServiceState
        [Step.read (Reading.accel (2/5) 0 0), Step.tick 0]).2 = 0 ∧
      countFrames (runSession (fun q => q) ("trip") 0 initialServiceState
        [Step.read (Reading.accel (2/5) 0 0), Step.tick 0,
         Step.read (Reading.accel (4/5) 0 0), Step.tick 1,
         Step.read (Reading.accel (6/5) 0 0), Step.tick 2]).2 = 1 := by
  have ha1 : applyReading (Reading.accel (2/5) 0 0) initialLiveSensorState = s04 := rfl
  have ha2 : applyReading (Reading.accel (4/5) 0 0) s04 = s08 := rfl
  have ha3 : applyReading (Reading.accel (6/5) 0 0) s08 = s12 := rfl
  refine ⟨?_, ?_, ?_⟩
  · norm_num [succDeltasWithin, ACCEL_THRESHOLD, abs_le]
  · simp [runSession, stepSession, sendCombinedDataPacket,
      initialServiceState, ha1, gate_base_s04, countFrames, isFrameOutput]
  · simp [runSession, stepSession, sendCombinedDataPacket,
      initialServiceState, ha1, ha2, ha3,
      gate_base_s04, gate_base_s08, gate_s08_s12,
      countFrames, isFrameOutput, List.countP_cons]

/-- Witness for C4 amended: a reading within threshold of the published
baseline followed by a tick publishes nothing and leaves the last published
state unchanged. -/
theorem withinThreshold_no_further_publish_witness :
    countFrames (runSession (fun q => q) ("trip") 0 initialServiceState
        [Step.read (Reading.accel (2/5) 0 0), Step.tick 0]).2 = 0 ∧
      (runSession (fun q => q) ("trip") 0 initialServiceState
        [Step.read (Reading.accel (2/5) 0 0), Step.tick 0]).1.lastPublishedState =
        initialServiceState.lastPublishedState :=
  withinThreshold_no_further_publish (fun q => q) ("trip") 0
    [Step.read (Reading.accel (2/5) 0 0), Step.tick 0] initialServiceState
    (by norm_num [withinGateThresholds, initialServiceState, initialLiveSensorState,
      ACCEL_THRESHOLD, GYRO_THRESHOLD, ROT_VEC_THRESHOLD])
    (by
      intro r hm
      simp only [List.mem_cons, List.not_mem_nil, or_false] at hm
      rcases hm with hm | hm
      · cases hm
        norm_num [readingWithin, initialServiceState, initialLiveSensorState,
          ACCEL_THRESHOLD, abs_le]
      · cases hm)
